import Mathlib

/-!
Verification of the virtual-table adapter in `cgatcore/database.py`.

The adapter exposes one or more tab-separated text files to an apsw/SQLite
host engine as a virtual table.  The Python core being modelled is:

* `_getfiledata(path)` — iterates over the given paths, reads each file
  line by line; the first line encountered overall is remembered raw as
  `columns`; EVERY line (the first one included) is transformed by
  `line.replace("\t", ",").strip().split(',')` and appended to `data`.
* `_VirtualTable.Create(db, modulename, dbname, tablename, *args)` —
  calls `_getfiledata`, whitespace-splits the raw header into column
  names, builds the string `create table foo('c1',...)` and returns it
  together with a `_Table(columns, data)`.  `Connect = Create`.
* `_Table` — holds `columns` and `data`; `Open` returns `_Cursor(self)`;
  `BestIndex` returns `None`; `Disconnect`/`Destroy` do nothing.
* `_Cursor` — `__init__` stores only the table (no position!);
  `Filter` sets `pos = 0`; `Eof` is `pos >= len(data)`; `Rowid` is
  `data[pos][0]`; `Column(col)` is `data[pos][col]`; `Next` does
  `pos += 1`; `Close` does nothing.

File I/O is modelled by passing each file's content as a list of lines
(the strings a Python `for line in infile` loop yields, without the
trailing newline — `str.strip`/`str.split` treat that newline as
whitespace, so dropping it is observable-behaviour preserving).
Partial Python operations (attribute access on a missing `pos`,
list indexing out of range, `None.split()`) are modelled with `Option`:
`none` is the raised exception.
-/

namespace Cgat

/-- The characters `str.strip()` and no-argument `str.split()` treat as
whitespace (the ASCII ones; `\x0b` and `\x0c` are vertical tab and
form feed). -/
def isPySpace (c : Char) : Bool :=
  c = ' ' || c = '\t' || c = '\n' || c = '\r' || c = Char.ofNat 11 || c = Char.ofNat 12

/-- The single-quote character, used by `Create` when quoting column
names in the schema string. -/
def sq : String := String.singleton (Char.ofNat 39)

/-- `line.replace("\t", ",")`: the pattern and the replacement are single
characters, so the Python call is a character-wise map. -/
def replaceTabComma (l : List Char) : List Char :=
  l.map (fun c => if c = '\t' then ',' else c)

/-- `str.strip()`: remove leading and trailing whitespace. -/
def stripChars (l : List Char) : List Char :=
  ((l.dropWhile isPySpace).reverse.dropWhile isPySpace).reverse

/-- Python `str.split(sep)` for a one-character separator, generalised to
a predicate: split at every matching character, keeping empty pieces;
the empty string yields `[[]]` (Python: `"".split(',') == ['']`). -/
def splitWhen (p : Char → Bool) : List Char → List (List Char)
  | [] => [[]]
  | c :: rest =>
    match splitWhen p rest with
    | [] => [[]]
    | g :: gs => if p c then [] :: g :: gs else (c :: g) :: gs

/-- Python no-argument `str.split()`: split on whitespace runs and drop
the empty pieces (`"".split() == []`). -/
def pySplitWs (s : String) : List String :=
  ((splitWhen isPySpace s.data).filter (fun g => !g.isEmpty)).map (fun g => String.mk g)

/-- `line.replace("\t", ",").strip().split(',')` — how `_getfiledata`
turns one raw line into a row of fields. -/
def lineToRow (line : String) : List String :=
  (splitWhen (fun c => c = ',') (stripChars (replaceTabComma line.data))).map
    (fun g => String.mk g)

/-- The inner `for line in infile` loop of `_getfiledata`, threading the
`(columns, data)` state: the first line seen while `columns is None`
becomes the raw header, and every line (that one included) is appended
to `data` as a row. -/
def loadLines (acc : Option String × List (List String)) :
    List String → Option String × List (List String)
  | [] => acc
  | line :: rest =>
    let cols := match acc.1 with
      | none => some line
      | some c => some c
    loadLines (cols, acc.2 ++ [lineToRow line]) rest

/-- `_getfiledata(path)`: the outer `for p in path` loop over the files
(each file given as its list of lines).  Returns the raw header line
(`none` when no line was ever read) and the row store. -/
def getfiledata (files : List (List String)) : Option String × List (List String) :=
  files.foldl loadLines (none, [])

/-- `_Table(columns, data)`: the provider owning one column schema and
one row store. -/
structure Table where
  columns : List String
  data : List (List String)
deriving DecidableEq

/-- The schema string built by `Create`:
`"create table foo(" + ','.join(["'%s'" % x for x in columns]) + ")"`. -/
def createSchema (columns : List String) : String :=
  "create table foo(" ++ String.intercalate "," (columns.map (fun x => sq ++ x ++ sq)) ++ ")"

/-- `_VirtualTable.Create(db, modulename, dbname, tablename, *args)`.
`none` models the `AttributeError` raised by `columns.split()` when
`_getfiledata` returned `columns = None` (no line was read). -/
def VirtualTable.Create (db modulename dbname tablename : String)
    (args : List (List String)) : Option (String × Table) :=
  match getfiledata args with
  | (none, _) => none
  | (some c, data) =>
    let columns := pySplitWs c
    some (createSchema columns, Table.mk columns data)

/-- `Connect = Create`: the class attribute alias in `_VirtualTable`. -/
def VirtualTable.Connect : String → String → String → String →
    List (List String) → Option (String × Table) :=
  VirtualTable.Create

/-- `_Cursor`: holds the back-reference to its table and the position.
`pos = none` models the state right after `__init__`, where the Python
object has no `pos` attribute at all (it is first assigned by `Filter`). -/
structure Cursor where
  table : Table
  pos : Option Nat
deriving DecidableEq

/-- `_Table.Open`: `return _Cursor(self)` — a fresh cursor with no
position attribute yet. -/
def Table.Open (t : Table) : Cursor :=
  Cursor.mk t none

/-- `_Table.BestIndex`: `return None` — no index-assisted access paths. -/
def Table.BestIndex (t : Table) (args : List String) : Option Nat :=
  none

/-- `_Cursor.Filter`: `self.pos = 0` (its arguments are ignored). -/
def Cursor.Filter (c : Cursor) : Cursor :=
  { c with pos := some 0 }

/-- `_Cursor.Eof`: `return self.pos >= len(self.table.data)`; `none` is
the `AttributeError` when `Filter` has not run yet. -/
def Cursor.Eof (c : Cursor) : Option Bool :=
  c.pos.map (fun p => decide (c.table.data.length ≤ p))

/-- `_Cursor.Rowid`: `return self.table.data[self.pos][0]`; `none` is an
`AttributeError` (no `pos`) or `IndexError` (position or field out of
range). -/
def Cursor.Rowid (c : Cursor) : Option String :=
  c.pos.bind (fun p => (c.table.data.get? p).bind (fun row => row.get? 0))

/-- `_Cursor.Column`: `return self.table.data[self.pos][col]` (the host
engine passes a non-negative column index). -/
def Cursor.Column (c : Cursor) (col : Nat) : Option String :=
  c.pos.bind (fun p => (c.table.data.get? p).bind (fun row => row.get? col))

/-- `_Cursor.Next`: `self.pos += 1`; `none` is the `AttributeError` when
`pos` was never assigned. -/
def Cursor.Next (c : Cursor) : Option Cursor :=
  c.pos.map (fun p => { c with pos := some (p + 1) })

/-- `_Cursor.Close`: `pass` — does nothing at all. -/
def Cursor.Close (c : Cursor) : Cursor :=
  c

/-- `k` successive calls of `Next`. -/
def iterNext (c : Cursor) : Nat → Option Cursor
  | 0 => some c
  | k + 1 => (iterNext c k).bind Cursor.Next

/-- The state-changing cursor methods, for frame-property statements. -/
inductive CursorOp
  | filterOp
  | nextOp
  | closeOp
deriving DecidableEq

/-- Run one state-changing method on a cursor. -/
def applyOp : CursorOp → Cursor → Option Cursor
  | CursorOp.filterOp, c => some c.Filter
  | CursorOp.nextOp, c => c.Next
  | CursorOp.closeOp, c => some c.Close

/-- Run a method on the first of two cursors opened on the same provider;
the Python method bodies only ever assign `self.pos`, which the
translation reflects: the second component is the untouched second
cursor object. -/
def applyFirst (op : CursorOp) (s : Cursor × Cursor) : Option (Cursor × Cursor) :=
  (applyOp op s.1).map (fun c => (c, s.2))

/-- Run a method on the second of two cursors opened on the same provider. -/
def applySecond (op : CursorOp) (s : Cursor × Cursor) : Option (Cursor × Cursor) :=
  (applyOp op s.2).map (fun c => (s.1, c))

/-- The spec's worked example: one file with header `id\tname\tscore`
and data lines `1\tA\t10`, `2\tB\t20`. -/
def exampleFiles : List (List String) :=
  [["id\tname\tscore", "1\tA\t10", "2\tB\t20"]]

/-- The table the code actually builds from `exampleFiles`: the header
line is loaded into the row store as well. -/
def exampleTable : Table :=
  Table.mk ["id", "name", "score"]
    [["id", "name", "score"], ["1", "A", "10"], ["2", "B", "20"]]

example : lineToRow "1\tA\t10" = ["1", "A", "10"] := by decide
example : lineToRow "a,b" = ["a", "b"] := by decide
example : pySplitWs "id\tname\tscore" = ["id", "name", "score"] := by decide
example :
    VirtualTable.Create "db" "mod" "dbn" "tbl" exampleFiles =
      some (createSchema ["id", "name", "score"], exampleTable) := by decide

/-- Closed form of the inner line loop: the header slot is filled by the
first line when still empty, and every line is appended as a row. -/
theorem loadLines_eq (cols : Option String) (data : List (List String))
    (lines : List String) :
    loadLines (cols, data) lines =
      ((match cols with
        | some c => some c
        | none => lines.head?),
       data ++ lines.map lineToRow) := by
  induction lines generalizing cols data with
  | nil => cases cols <;> simp [loadLines]
  | cons l rest ih =>
    cases cols with
    | none => simp [loadLines, ih]
    | some c => simp [loadLines, ih]

/-- Closed form of the fold over all files, from an arbitrary
accumulated state. -/
theorem foldl_loadLines_eq (files : List (List String)) (cols : Option String)
    (data : List (List String)) :
    files.foldl loadLines (cols, data) =
      ((match cols with
        | some c => some c
        | none => (files.flatten).head?),
       data ++ (files.flatten).map lineToRow) := by
  induction files generalizing cols data with
  | nil => cases cols <;> simp
  | cons f rest ih =>
    rw [List.foldl_cons, loadLines_eq, ih]
    cases cols with
    | some c => simp
    | none =>
      cases f with
      | nil => simp
      | cons l ls => simp

/-- `_getfiledata` returns the first line overall as the raw header and
the row image of the concatenation of all the files' lines. -/
theorem getfiledata_eq (files : List (List String)) :
    getfiledata files = ((files.flatten).head?, (files.flatten).map lineToRow) := by
  rw [getfiledata, foldl_loadLines_eq]
  simp

/-- Advancing a positioned cursor `k` times adds `k` to its position and
touches nothing else. -/
theorem iterNext_pos (t : Table) (p k : Nat) :
    iterNext (Cursor.mk t (some p)) k = some (Cursor.mk t (some (p + k))) := by
  induction k with
  | zero => rfl
  | succ k ih =>
    rw [iterNext, ih]
    rfl

/-- A list containing no separator character splits into the single
piece that is the whole list. -/
theorem splitWhen_eq_singleton (p : Char → Bool) (l : List Char)
    (h : ∀ c ∈ l, p c = false) :
    splitWhen p l = [l] := by
  induction l with
  | nil => rfl
  | cons c rest ih =>
    have hrest := ih (fun x hx => h x (List.mem_cons_of_mem _ hx))
    rw [splitWhen, hrest]
    simp [h c (List.mem_cons_self _ _)]

/-- Replacing tabs by commas does nothing to a tab-free list. -/
theorem replaceTabComma_of_not_mem (l : List Char) (h : '\t' ∉ l) :
    replaceTabComma l = l := by
  induction l with
  | nil => rfl
  | cons c rest ih =>
    have hc : c ≠ '\t' := fun hceq => h (hceq ▸ List.mem_cons_self _ _)
    have hrest := ih (fun hx => h (List.mem_cons_of_mem _ hx))
    show (if c = '\t' then ',' else c) :: replaceTabComma rest = c :: rest
    rw [if_neg hc, hrest]

/-- Replacing tabs by commas twice is the same as doing it once. -/
theorem replaceTabComma_idem (l : List Char) :
    replaceTabComma (replaceTabComma l) = replaceTabComma l := by
  induction l with
  | nil => rfl
  | cons c rest ih =>
    by_cases hc : c = '\t' <;> simp [replaceTabComma, hc] at ih ⊢ <;> exact ih

/-- Stripping only removes characters: membership is preserved. -/
theorem mem_of_mem_stripChars {c : Char} {l : List Char}
    (h : c ∈ stripChars l) : c ∈ l := by
  unfold stripChars at h
  rw [List.mem_reverse] at h
  have h2 : c ∈ (l.dropWhile isPySpace).reverse :=
    (List.dropWhile_sublist _).subset h
  rw [List.mem_reverse] at h2
  exact (List.dropWhile_sublist _).subset h2

/-- C1 is false on the code: on the worked example `Create` loads the
header line into the row store too, so the store has three rows, not the
claimed `[["1","A","10"],["2","B","20"]]`, and `rowid()` right after
`open()` then `filter()` is `"id"`, not `"1"`. -/
theorem C1_counterexample :
    VirtualTable.Create "db" "mod" "dbn" "tbl" exampleFiles =
      some (createSchema ["id", "name", "score"], exampleTable)
    ∧ exampleTable.data ≠ [["1", "A", "10"], ["2", "B", "20"]]
    ∧ ((exampleTable.Open).Filter).Rowid = some "id"
    ∧ some "id" ≠ some "1" := by decide

/-- C1 (amended): for a single-file input with a header line and R data
lines, the schema has exactly the header's whitespace-token count of
columns and the row store holds R+1 rows — the split header line followed
by the R data rows in file order; on the worked example, after `open()`
then `filter()`, `rowid()` is `"id"` and `column(1)` is `"name"`, after
one `next()` `rowid()` is `"1"`, after two it is `"2"` with `eof()` still
false, and `eof()` becomes true after the third `next()`. -/
theorem C1_single_file_load :
    (∀ db mn dn tn (header : String) (rows : List String),
      VirtualTable.Create db mn dn tn [header :: rows] =
        some (createSchema (pySplitWs header),
          Table.mk (pySplitWs header) (lineToRow header :: rows.map lineToRow)))
    ∧ (((exampleTable.Open).Filter).Rowid = some "id"
        ∧ ((exampleTable.Open).Filter).Column 1 = some "name"
        ∧ (iterNext ((exampleTable.Open).Filter) 1).bind Cursor.Rowid = some "1"
        ∧ (iterNext ((exampleTable.Open).Filter) 2).bind Cursor.Rowid = some "2"
        ∧ (iterNext ((exampleTable.Open).Filter) 2).bind Cursor.Eof = some false
        ∧ (iterNext ((exampleTable.Open).Filter) 3).bind Cursor.Eof = some true) := by
  constructor
  · intro db mn dn tn header rows
    simp [VirtualTable.Create, getfiledata_eq]
  · exact ⟨by decide, by decide, by decide, by decide, by decide, by decide⟩

/-- C2 is false on the code: for the two files `["h\ta","1\t2"]` and
`["x\ty","3\t4"]` the row store has 4 rows (every line of every file),
not the claimed sum-of-line-counts-minus-one, which is 3. -/
theorem C2_counterexample :
    (getfiledata [["h\ta", "1\t2"], ["x\ty", "3\t4"]]).2.length = 4
    ∧ (2 + 2 - 1 : Nat) = 3 ∧ (4 : Nat) ≠ 3 := by decide

/-- C2 (amended): for every multi-file input the row store size equals
the sum of the files' line counts — no line is excluded: the first line
of every file, the very first file included, is loaded as a data row. -/
theorem C2_row_store_size :
    ∀ files : List (List String),
      (getfiledata files).2.length = (files.map List.length).sum
      ∧ (getfiledata files).2 = files.flatten.map lineToRow := by
  intro files
  rw [getfiledata_eq]
  exact ⟨by rw [List.length_map, List.length_flatten], rfl⟩

/-- C3 is false on the code: the data line `a,b` contains no tab, yet it
is loaded as the two-field row `["a","b"]`, not as the single-field row
`["a,b"]` — the loader turns tabs into commas and then splits on commas,
so embedded commas also act as field delimiters. -/
theorem C3_counterexample :
    lineToRow "a,b" = ["a", "b"] ∧ lineToRow "a,b" ≠ ["a,b"] := by decide

/-- C3 (amended): a data line is fielded by replacing every tab with a
comma, stripping leading and trailing whitespace, and splitting on
commas — hence tabs and commas are interchangeable delimiters, and a
line containing neither tabs nor commas yields the single-field row
holding the whole stripped line. -/
theorem C3_field_splitting :
    (∀ line : String,
      lineToRow (String.mk (replaceTabComma line.data)) = lineToRow line)
    ∧ (∀ line : String, (∀ c ∈ line.data, c ≠ '\t' ∧ c ≠ ',') →
        lineToRow line = [String.mk (stripChars line.data)]) := by
  constructor
  · intro line
    show (splitWhen _
        (stripChars (replaceTabComma (replaceTabComma line.data)))).map _ = _
    rw [replaceTabComma_idem]
    rfl
  · intro line h
    have htab : '\t' ∉ line.data := fun hx => (h _ hx).1 rfl
    unfold lineToRow
    rw [replaceTabComma_of_not_mem _ htab,
      splitWhen_eq_singleton _ _ (fun c hc =>
        decide_eq_false ((h c (mem_of_mem_stripChars hc)).2))]
    rfl

/-- Witness for C3 (amended) at the comma-free, tab-free line `xy10`. -/
theorem C3_field_splitting_witness :
    (∀ c ∈ ("xy10" : String).data, c ≠ '\t' ∧ c ≠ ',')
    ∧ lineToRow "xy10" = [String.mk (stripChars ("xy10" : String).data)] :=
  ⟨by decide, C3_field_splitting.2 "xy10" (by decide)⟩

/-- C4: immediately after `filter()`, `eof()` is true iff the row store
is empty; with N stored rows, `eof()` is false after k calls of `next()`
for every k < N and true after N calls. -/
theorem C4_eof_counts :
    ∀ t : Table,
      (((t.Open).Filter).Eof = some true ↔ t.data = [])
      ∧ (∀ k, k < t.data.length →
          ∃ c, iterNext ((t.Open).Filter) k = some c ∧ c.Eof = some false)
      ∧ (∃ c, iterNext ((t.Open).Filter) t.data.length = some c
          ∧ c.Eof = some true) := by
  intro t
  have hf : (t.Open).Filter = Cursor.mk t (some 0) := rfl
  refine ⟨?_, ?_, ?_⟩
  · rw [hf]
    show some (decide (t.data.length ≤ 0)) = some true ↔ t.data = []
    simp [Nat.le_zero, List.length_eq_zero]
  · intro k hk
    refine ⟨Cursor.mk t (some k), ?_, ?_⟩
    · rw [hf, iterNext_pos]
      simp
    · show some (decide (t.data.length ≤ k)) = some false
      simp [Nat.not_le.mpr hk]
  · refine ⟨Cursor.mk t (some t.data.length), ?_, ?_⟩
    · rw [hf, iterNext_pos]
      simp
    · show some (decide (t.data.length ≤ t.data.length)) = some true
      simp

/-- Witness for C4 on the worked example's table (N = 3), at k = 1. -/
theorem C4_eof_counts_witness :
    1 < exampleTable.data.length
    ∧ (∃ c, iterNext ((exampleTable.Open).Filter) 1 = some c
        ∧ c.Eof = some false) :=
  ⟨by decide, (C4_eof_counts exampleTable).2.1 1 (by decide)⟩

/-- C5: every state-changing cursor method leaves the shared table (row
store and schema) unchanged, and in a two-cursor session a method run on
either cursor leaves the other cursor entirely unchanged — the two
positions evolve independently. -/
theorem C5_cursor_independence :
    (∀ (op : CursorOp) (c c' : Cursor), applyOp op c = some c' →
      c'.table = c.table)
    ∧ (∀ (op : CursorOp) (s s' : Cursor × Cursor), applyFirst op s = some s' →
        s'.2 = s.2 ∧ s'.1.table = s.1.table)
    ∧ (∀ (op : CursorOp) (s s' : Cursor × Cursor), applySecond op s = some s' →
        s'.1 = s.1 ∧ s'.2.table = s.2.table) := by
  have hop : ∀ (op : CursorOp) (c c' : Cursor), applyOp op c = some c' →
      c'.table = c.table := by
    intro op c c' h
    cases op with
    | filterOp =>
      injection h with h
      rw [← h]
      rfl
    | nextOp =>
      cases hp : c.pos with
      | none =>
        rw [applyOp, Cursor.Next, hp] at h
        cases h
      | some p =>
        rw [applyOp, Cursor.Next, hp] at h
        injection h with h
        rw [← h]
    | closeOp =>
      injection h with h
      rw [← h]
      rfl
  refine ⟨hop, ?_, ?_⟩
  · intro op s s' h
    rw [applyFirst] at h
    cases ho : applyOp op s.1 with
    | none =>
      rw [ho] at h
      cases h
    | some c =>
      rw [ho] at h
      injection h with h
      rw [← h]
      exact ⟨rfl, hop op s.1 c ho⟩
  · intro op s s' h
    rw [applySecond] at h
    cases ho : applyOp op s.2 with
    | none =>
      rw [ho] at h
      cases h
    | some c =>
      rw [ho] at h
      injection h with h
      rw [← h]
      exact ⟨rfl, hop op s.2 c ho⟩

/-- Witness for C5: advancing the first of two freshly filtered cursors
on the example table leaves the second cursor untouched. -/
theorem C5_cursor_independence_witness :
    ((Cursor.mk exampleTable (some 1), (exampleTable.Open).Filter).2 =
        ((exampleTable.Open).Filter, (exampleTable.Open).Filter).2
      ∧ (Cursor.mk exampleTable (some 1), (exampleTable.Open).Filter).1.table =
        ((exampleTable.Open).Filter, (exampleTable.Open).Filter).1.table) :=
  C5_cursor_independence.2.1 CursorOp.nextOp
    ((exampleTable.Open).Filter, (exampleTable.Open).Filter)
    (Cursor.mk exampleTable (some 1), (exampleTable.Open).Filter) (by decide)

/-- C6: `Connect` is the very same operation as `Create` — on every
argument list it re-runs the full load and returns the identical
(schema string, provider) result. -/
theorem C6_connect_equals_create :
    ∀ db mn dn tn (args : List (List String)),
      VirtualTable.Connect db mn dn tn args =
        VirtualTable.Create db mn dn tn args := by
  intro db mn dn tn args
  rfl

/-- C7 is false on the code: `Close` does nothing, so after `close()` the
cursor is unchanged and `eof()`, `rowid()` and `next()` all still succeed
normally instead of failing. -/
theorem C7_counterexample :
    Cursor.Close ((exampleTable.Open).Filter) = (exampleTable.Open).Filter
    ∧ (Cursor.Close ((exampleTable.Open).Filter)).Eof = some false
    ∧ (Cursor.Close ((exampleTable.Open).Filter)).Rowid = some "id"
    ∧ (Cursor.Close ((exampleTable.Open).Filter)).Next =
        some (Cursor.mk exampleTable (some 1)) := by decide

/-- C7 (amended): `close()` is a no-op — the cursor is left exactly as it
was, and every subsequent operation behaves exactly as it would have
before the `close()` call; no Closed state exists and no post-close call
fails. -/
theorem C7_close_is_noop :
    ∀ (c : Cursor) (op : CursorOp) (col : Nat),
      c.Close = c
      ∧ applyOp op c.Close = applyOp op c
      ∧ (c.Close).Eof = c.Eof
      ∧ (c.Close).Rowid = c.Rowid
      ∧ (c.Close).Column col = c.Column col := by
  intro c op col
  exact ⟨rfl, rfl, rfl, rfl, rfl⟩

/-- C8 is false on the code: the cursor returned by `open()` has no
position at all — `__init__` never assigns `pos` — so `eof()` and
`next()` before the first `filter()` fail (AttributeError, modelled as
`none`) rather than being well-defined. -/
theorem C8_counterexample :
    (Table.Open exampleTable).pos = none
    ∧ (Table.Open exampleTable).Eof = none
    ∧ (Table.Open exampleTable).Next = none := by decide

/-- C8 (amended): `open()` returns a new cursor sharing read-only access
to the provider's row store but with no position: `eof()`, `next()` and
`rowid()` on it fail before the first `filter()`, which is what first
establishes the position, at row 0. -/
theorem C8_open_fresh_cursor :
    ∀ t : Table,
      (t.Open).table = t
      ∧ (t.Open).pos = none
      ∧ (t.Open).Eof = none
      ∧ (t.Open).Next = none
      ∧ (t.Open).Rowid = none
      ∧ ((t.Open).Filter).pos = some 0 := by
  intro t
  exact ⟨rfl, rfl, rfl, rfl, rfl, rfl⟩

/-- C9: `Create` (hence `Connect`) fails — `columns.split()` raises on
`None` — exactly when no line was ever read, i.e. the path list is empty
or every file has zero lines; and when it succeeds, the schema has zero
columns exactly when the first line read splits into zero whitespace
tokens. -/
theorem C9_empty_input_fails :
    ∀ db mn dn tn (files : List (List String)),
      (VirtualTable.Create db mn dn tn files = none ↔
        ∀ f ∈ files, f = ([] : List String))
      ∧ (∀ schema t, VirtualTable.Create db mn dn tn files = some (schema, t) →
          (t.columns = [] ↔
            ∃ l, files.flatten.head? = some l ∧ pySplitWs l = [])) := by
  intro db mn dn tn files
  constructor
  · rw [← List.flatten_eq_nil_iff]
    cases hf : files.flatten with
    | nil =>
      simp [VirtualTable.Create, getfiledata_eq, hf]
    | cons l ls =>
      simp [VirtualTable.Create, getfiledata_eq, hf]
  · intro schema t h
    cases hf : files.flatten with
    | nil =>
      rw [VirtualTable.Create, getfiledata_eq, hf] at h
      cases h
    | cons l ls =>
      rw [VirtualTable.Create, getfiledata_eq, hf] at h
      simp only [List.head?_cons, Option.some.injEq, Prod.mk.injEq] at h
      obtain ⟨hs, ht⟩ := h
      rw [← ht]
      constructor
      · intro hcols
        exact ⟨l, rfl, hcols⟩
      · rintro ⟨l2, hl2, hsplit⟩
        injection hl2 with hl2
        rw [hl2]
        exact hsplit

/-- Witness for C9 at the worked example: the load succeeds and the
example table's columns are not empty, matching that its header does not
split to zero tokens. -/
theorem C9_empty_input_fails_witness :
    exampleTable.columns = [] ↔
      ∃ l, exampleFiles.flatten.head? = some l ∧ pySplitWs l = [] :=
  (C9_empty_input_fails "db" "mod" "dbn" "tbl" exampleFiles).2
    (createSchema ["id", "name", "score"]) exampleTable (by decide)

/-- C10: the schema string returned by `Create` ignores the requested
table name — swapping it changes nothing — and is always the literal
`create table foo(...)` with each header-derived column name
single-quoted and comma-separated. -/
theorem C10_schema_string :
    ∀ db mn dn tn tn2 (files : List (List String)),
      VirtualTable.Create db mn dn tn files =
        VirtualTable.Create db mn dn tn2 files
      ∧ (∀ schema t, VirtualTable.Create db mn dn tn files = some (schema, t) →
          schema = "create table foo(" ++
            String.intercalate "," (t.columns.map (fun x => sq ++ x ++ sq)) ++
            ")") := by
  intro db mn dn tn tn2 files
  refine ⟨rfl, ?_⟩
  intro schema t h
  cases hf : files.flatten with
  | nil =>
    rw [VirtualTable.Create, getfiledata_eq, hf] at h
    cases h
  | cons l ls =>
    rw [VirtualTable.Create, getfiledata_eq, hf] at h
    simp only [List.head?_cons, Option.some.injEq, Prod.mk.injEq] at h
    obtain ⟨hs, ht⟩ := h
    rw [← hs, ← ht]
    rfl

/-- Witness for C10 at the worked example: the returned schema string is
`create table foo('id','name','score')`, whatever table name was asked
for. -/
theorem C10_schema_string_witness :
    createSchema ["id", "name", "score"] =
      "create table foo(" ++
        String.intercalate ","
          (exampleTable.columns.map (fun x => sq ++ x ++ sq)) ++ ")" :=
  (C10_schema_string "db" "mod" "dbn" "alpha" "beta" exampleFiles).2
    (createSchema ["id", "name", "score"]) exampleTable (by decide)

end Cgat
